import Mathlib

/-!
A shallow embedding of the SSH communicator from
`communicator/ssh/communicator.go` of the packer plugin SDK: connection
lifecycle (`reconnect`), session acquisition with a one-shot retry
(`newSession`), remote command execution (`Start`), and the SCP upload
protocol driver (`checkSCPStatus`, `scpUploadFile`, `scpUploadDir`,
`scpSession`, `UploadDir`).

External collaborators — the transport factory, the secure-channel
library, the local filesystem and the remote sink process — are modelled
as deterministic oracles passed in as parameters.  Byte streams are
`List Nat`; Go's multiple-return `(value, error)` convention is modelled
with `Except` and `Option` (a Go function returning a nil value together
with a non-nil error follows the standard library convention, so `Except`
is faithful).  Side effects that the properties observe (closing handles,
writing the exit-status slot) are recorded as explicit event traces.
-/

namespace SSHComm

/-- Abstract transport connection (Go `net.Conn`). -/
structure Conn where
  id : Nat
deriving DecidableEq

/-- Abstract authenticated multiplexed client (Go `*ssh.ClientConn`). -/
structure Client where
  id : Nat
deriving DecidableEq

/-- Abstract duplex channel (Go `*ssh.Session`). -/
structure Session where
  id : Nat
deriving DecidableEq

/-- The error values the connection/session layer produces.  In Go these
are untyped `error` values; the constructors record their origin. -/
inductive SSHError where
  -- errors.New("client not available")
  | clientNotAvailable
  -- error returned by config.Connection()
  | connectionError (msg : String)
  -- error returned by ssh.Client(conn, sshConfig)
  | handshakeError (msg : String)
  -- error returned by client.NewSession()
  | openError (msg : String)
deriving DecidableEq

/-- Configuration: the connection factory (`Connection func() (net.Conn, error)`)
and the secure-channel handshake (`ssh.Client`) as deterministic oracles. -/
structure Config where
  connection : Except String Conn
  handshake : Conn → Except String Client

/-- The `comm` struct: current client, configuration, current connection. -/
structure Comm where
  client : Option Client
  config : Config
  conn : Option Conn

/-- Operation `reconnect`: closes any existing connection, clears both fields,
invokes the factory and, if that succeeds, performs the handshake.
Mirrors the Go assignments `c.conn, err = c.config.Connection()` and
`c.client, err = ssh.Client(c.conn, c.config.SSHConfig)`. -/
def reconnect (c : Comm) : Comm × Option SSHError :=
  -- if c.conn != nil { c.conn.Close() } — closing has no modelled effect
  -- c.conn = nil; c.client = nil
  let c1 : Comm := { c with conn := none, client := none }
  -- c.conn, err = c.config.Connection()
  match c.config.connection with
  | .error e => (c1, some (.connectionError e))
  | .ok conn =>
    let c2 : Comm := { c1 with conn := some conn }
    -- c.client, err = ssh.Client(c.conn, c.config.SSHConfig)
    match c.config.handshake conn with
    | .error e => (c2, some (.handshakeError e))
    | .ok cl => ({ c2 with client := some cl }, none)

/-- Events recorded by `newSession`: each actual channel-open attempt on a
client, and each call to `reconnect`. -/
inductive NsEvent where
  | openAttempt
  | reconnectCall
deriving DecidableEq

/-- The first block of `newSession`: if no client is present the error is
`errors.New("client not available")`, otherwise the result of
`c.client.NewSession()`. -/
def firstAttempt (openCh : Client → Except String Session) (c : Comm) :
    Except SSHError Session :=
  match c.client with
  | none => .error .clientNotAvailable
  | some cl =>
    match openCh cl with
    | .error e => .error (.openError e)
    | .ok s => .ok s

/-- Operation `newSession`: try once on the current client; on any failure call
`reconnect` once and, if it succeeds, retry `NewSession` exactly once on
the fresh client; if `reconnect` fails, return its error. -/
def newSession (openCh : Client → Except String Session) (c : Comm) :
    Comm × Except SSHError Session × List NsEvent :=
  let evs0 : List NsEvent := if c.client.isSome then [.openAttempt] else []
  match firstAttempt openCh c with
  | .ok s => (c, .ok s, evs0)
  | .error _ =>
    -- if err := c.reconnect(); err != nil { return nil, err }
    match reconnect c with
    | (c1, some re) => (c1, .error re, evs0 ++ [.reconnectCall])
    | (c1, none) =>
      -- return c.client.NewSession()
      match c1.client with
      | some cl =>
        (c1,
         (match openCh cl with
          | .error e => .error (.openError e)
          | .ok s => .ok s),
         evs0 ++ [.reconnectCall, .openAttempt])
      | none =>
        -- unreachable: a successful reconnect always installs a client
        (c1, .error .clientNotAvailable, evs0 ++ [.reconnectCall])

/-- A successful `reconnect` always installs both a connection and a
client. -/
theorem reconnect_ok_fields (c : Comm) (h : (reconnect c).2 = none) :
    ∃ cl conn, (reconnect c).1.client = some cl ∧ (reconnect c).1.conn = some conn := by
  unfold reconnect at *
  rcases hco : c.config.connection with e | conn
  · simp [hco] at h
  · rcases hhs : c.config.handshake conn with e | cl
    · simp [hco, hhs] at h
    · exact ⟨cl, conn, by simp [hco, hhs]⟩

/-- Outcome of `session.Wait()`: success, a typed `*ssh.ExitError` carrying
the remote exit status, or any other error. -/
inductive WaitResult where
  | success
  | exitError (code : Nat)
  | otherError (msg : String)
deriving DecidableEq

/-- Observable actions of the background task `Start` spawns: the single
write to the command's completion slot (`cmd.SetExited`) and the deferred
`session.Close()`. -/
inductive BgEvent where
  | setExited (code : Nat)
  | closeSession
deriving DecidableEq

/-- Oracles for one `Start` call: channel open, `session.RequestPty`,
`session.Start` and `session.Wait` (`none` = Go nil error). -/
structure StartOracles where
  openCh : Client → Except String Session
  requestPty : Session → Option String
  startCmd : Session → Option String
  wait : Session → WaitResult

/-- Exit-status extraction of the background task: `0` on a nil error,
the remote-reported status when the error is a typed `*ssh.ExitError`,
and `0` for any other error. -/
def exitCodeOf : WaitResult → Nat
  | .success => 0
  | .exitError code => code
  | .otherError _ => 0

/-- The background task: `defer session.Close()`, wait, extract the exit
status, `cmd.SetExited(exitStatus)`; the deferred close runs last. -/
def waitTask (w : WaitResult) : List BgEvent :=
  [.setExited (exitCodeOf w), .closeSession]

/-- Errors `Start` can return synchronously. -/
inductive StartError where
  | sessionError (e : SSHError)
  | ptyError (msg : String)
  | startFailed (msg : String)
deriving DecidableEq

/-- Operation `Start`: acquire a session, wire stdio, request a pty, start the remote
command; on success return immediately and spawn the background task. -/
def Start (o : StartOracles) (c : Comm) : Comm × Option StartError × List BgEvent :=
  match newSession o.openCh c with
  | (c2, .error e, _) => (c2, some (.sessionError e), [])
  | (c2, .ok s, _) =>
    -- session.Stdin/Stdout/Stderr wiring carries no modelled state
    match o.requestPty s with
    | some e => (c2, some (.ptyError e), [])
    | none =>
      match o.startCmd s with
      | some e => (c2, some (.startFailed e), [])
      | none => (c2, none, waitTask (o.wait s))

/-- The bytes of a string, as written to the wire. -/
def strBytes (s : String) : List Nat := s.data.map Char.toNat

/-- Errors of the SCP byte-protocol layer.  Again all are Go `error`
values; constructors record the origin. -/
inductive ScpError where
  -- a failed r.ReadByte() is returned unchanged (an I/O error such as EOF)
  | ioError (msg : String)
  -- fmt.Errorf("Error reading error message: %s", err)
  | readMessageError (msg : String)
  -- errors.New(string(message)) for a non-zero acknowledgement
  | protocolError (message : List Nat)
  -- a local os.Open failure surfaced by the directory driver
  | osError (msg : String)
deriving DecidableEq

/-- Model of `bufio.Reader.ReadLine`: fails only on an empty stream; otherwise
returns the bytes up to (excluding) the first newline, stripping a
carriage return immediately before the newline; when the stream ends
before any newline the partial data is returned without error. -/
def readLine (input : List Nat) : Except Unit (List Nat × List Nat) :=
  if input.isEmpty then .error ()
  else
    let pre := input.takeWhile (fun b => b ≠ 10)
    match input.dropWhile (fun b => b ≠ 10) with
    | [] => .ok (pre, [])
    | _ :: rest => .ok ((if pre.getLast? = some 13 then pre.dropLast else pre), rest)

/-- Operation `checkSCPStatus`: read one status byte; `0` is success; any non-zero
byte makes the codec read one message line and fail with that message;
a read failure is an I/O error.  The second component is the remaining
input stream (the `bufio.Reader` position after the call). -/
def checkSCPStatus (input : List Nat) : Except ScpError Unit × List Nat :=
  match input with
  | [] => (.error (.ioError "EOF"), [])
  | code :: rest =>
    if code = 0 then (.ok (), rest)
    else
      -- Treat any non-zero (really 1 and 2) as fatal errors
      match readLine rest with
      | .error _ => (.error (.readMessageError "EOF"), [])
      | .ok (message, rest2) => (.error (.protocolError message), rest2)

/-- The two sides of the protocol channel: bytes written so far to the
session's stdin, and the bytes still unread from the sink's stdout. -/
structure Wire where
  written : List Nat
  input : List Nat
deriving DecidableEq

/-- The header line `fmt.Fprintln(w, "C0644", len, dst)` produces:
operands separated by single spaces, terminated by a newline. -/
def fileHeader (dst : String) (len : Nat) : List Nat :=
  strBytes ("C0644 " ++ toString len ++ " " ++ dst ++ "\n")

/-- Operation `scpUploadFile`: drain the source into an in-memory buffer (the model
holds the content as a list, so the copy cannot fail), write the header
line, await an acknowledgement, copy the buffered content, write one NUL
terminator byte, await a second acknowledgement. -/
def scpUploadFile (dst : String) (src : List Nat) (wire : Wire) :
    Except ScpError Unit × Wire :=
  -- fmt.Fprintln(w, "C0644", inputBuf.Len(), dst)
  let w1 : Wire := ⟨wire.written ++ fileHeader dst src.length, wire.input⟩
  match checkSCPStatus w1.input with
  | (.error e, rest) => (.error e, ⟨w1.written, rest⟩)
  | (.ok _, rest) =>
    -- io.Copy(w, inputBuf)
    let w2 : Wire := ⟨w1.written ++ src, rest⟩
    -- fmt.Fprint(w, "\x00")
    let w3 : Wire := ⟨w2.written ++ [0], w2.input⟩
    match checkSCPStatus w3.input with
    | (.error e, rest2) => (.error e, ⟨w3.written, rest2⟩)
    | (.ok _, rest2) => (.ok (), ⟨w3.written, rest2⟩)

/-- Observable resource actions of `scpSession`: closing the stdin pipe
and closing the session. -/
inductive SessEvent where
  | stdinClose
  | sessionClose
deriving DecidableEq

/-- Errors `scpSession` (and `UploadDir`) can return. -/
inductive SessError where
  -- a session-acquisition error from newSession
  | sshErr (e : SSHError)
  -- session.StdinPipe / session.StdoutPipe failure
  | pipeError (msg : String)
  -- session.Start(scpCommand) failure
  | startFailed (msg : String)
  -- error returned by the transfer callback f
  | transferError (e : ScpError)
  -- errors.New(...) on the exit-status-127 path
  | newError (msg : String)
  -- the raw *ssh.ExitError for any other non-zero exit status
  | exitError (code : Nat)
  -- any other session.Wait error, returned unchanged
  | waitError (msg : String)
  -- a local os error returned by UploadDir before any session is opened
  | osError (msg : String)
deriving DecidableEq

/-- Oracles for one `scpSession` call.  `stderrOut` is the content the
remote process writes to stderr; the code collects it into a buffer and
only logs it, so it never influences the result. -/
structure SessionOracles where
  openCh : Client → Except String Session
  stdinPipe : Session → Option String
  stdoutPipe : Session → Option String
  startSink : Session → String → Option String
  wait : Session → WaitResult
  stderrOut : Session → List Nat

/-- The fixed message returned when the remote sink exits with 127. -/
def scpNotInstalledMessage : String :=
  "SCP failed to start. This usually means that SCP is not\nproperly installed on the remote system."

/-- Operation `scpSession`: acquire a session (`defer session.Close()`), obtain the
stdin pipe (deferred close guarded by a nil check), obtain the stdout
pipe, start the remote sink command, run the transfer callback, close
stdin explicitly (and nil the handle so the deferred close is skipped),
then wait on the remote process, special-casing exit status 127. -/
def scpSession (so : SessionOracles) (sink : List Nat)
    (f : Wire → Except ScpError Unit × Wire) (scpCommand : String) (c : Comm) :
    Comm × Option SessError × List SessEvent × Wire :=
  let wire0 : Wire := ⟨[], sink⟩
  match newSession so.openCh c with
  | (c2, .error e, _) => (c2, some (.sshErr e), [], wire0)
  | (c2, .ok s, _) =>
    -- defer session.Close() — appended last on every path below
    match so.stdinPipe s with
    | some e => (c2, some (.pipeError e), [.sessionClose], wire0)
    | none =>
      -- defer { if stdinW != nil { stdinW.Close() } } — runs before the
      -- session close (LIFO), on every path where stdinW is still set
      match so.stdoutPipe s with
      | some e => (c2, some (.pipeError e), [.stdinClose, .sessionClose], wire0)
      | none =>
        -- session.Stderr = stderr (a local buffer; collected, only logged)
        match so.startSink s scpCommand with
        | some e => (c2, some (.startFailed e), [.stdinClose, .sessionClose], wire0)
        | none =>
          match f wire0 with
          | (.error e, wire1) => (c2, some (.transferError e), [.stdinClose, .sessionClose], wire1)
          | (.ok _, wire1) =>
            -- stdinW.Close(); stdinW = nil — so the deferred close is a
            -- no-op; the explicit close is the single stdinClose event
            match so.wait s with
            | .success => (c2, none, [.stdinClose, .sessionClose], wire1)
            | .exitError code =>
              if code = 127 then
                (c2, some (.newError scpNotInstalledMessage), [.stdinClose, .sessionClose], wire1)
              else
                (c2, some (.exitError code), [.stdinClose, .sessionClose], wire1)
            | .otherError m => (c2, some (.waitError m), [.stdinClose, .sessionClose], wire1)

/-- A directory entry as reported by `Readdir`. -/
structure FileInfo where
  name : String
  isDir : Bool
deriving DecidableEq

/-- Local filesystem oracles for the directory driver: `os.Open` on the
source directory, `f.Readdir(-1)`, and `os.Open` on a file (the model
yields the file's whole content, which `scpUploadFile` then buffers). -/
structure DirOracles where
  openDir : String → Except String Unit
  readdir : String → Except String (List FileInfo)
  openFile : String → Except String (List Nat)

/-- Model of `filepath.Join(root, name)`, modelled as separator concatenation. -/
def joinPath (root name : String) : String := root ++ "/" ++ name

/-- Operation `scpUploadDir`: iterate the listed entries in order; entries that are
directories are skipped; each regular file is opened and uploaded through
`scpUploadFile` (the per-file handle close is untracked); the first error
aborts the loop. -/
def scpUploadDir (dops : DirOracles) (root : String) (fs : List FileInfo)
    (wire : Wire) : Except ScpError Unit × Wire :=
  match fs with
  | [] => (.ok (), wire)
  | fi :: rest =>
    if fi.isDir then scpUploadDir dops root rest wire
    else
      match dops.openFile (joinPath root fi.name) with
      | .error e => (.error (.osError e), wire)
      | .ok content =>
        match scpUploadFile fi.name content wire with
        | (.error e, wire1) => (.error e, wire1)
        | (.ok _, wire1) => scpUploadDir dops root rest wire1

/-- Operation `UploadDir`: open the local source directory, read its entry list,
then run `scpSession` with the remote sink command `scp -rvt <dst>` and
the directory driver as the callback.  The `excl` list is accepted but
never consulted. -/
def UploadDir (dops : DirOracles) (so : SessionOracles) (sink : List Nat)
    (c : Comm) (dst src : String) (excl : List String) :
    Comm × Option SessError × List SessEvent × Wire :=
  match dops.openDir src with
  | .error e => (c, some (.osError e), [], ⟨[], sink⟩)
  | .ok _ =>
    -- defer f.Close() on the directory handle is untracked
    match dops.readdir src with
    | .error e => (c, some (.osError e), [], ⟨[], sink⟩)
    | .ok entries =>
      scpSession so sink (scpUploadDir dops src entries) ("scp -rvt " ++ dst) c

/-! ## Helper lemmas on the status codec and the file upload -/

theorem takeWhile_before_newline (m rest : List Nat) (hm : 10 ∉ m) :
    (m ++ 10 :: rest).takeWhile (fun b => b ≠ 10) = m := by
  induction m with
  | nil => simp
  | cons a as ih =>
    have ha : a ≠ 10 := by
      rintro rfl
      exact hm (List.mem_cons_self _ _)
    have has : 10 ∉ as := fun h => hm (List.mem_cons_of_mem a h)
    rw [List.cons_append, List.takeWhile_cons, if_pos (by simp [ha]), ih has]

theorem dropWhile_before_newline (m rest : List Nat) (hm : 10 ∉ m) :
    (m ++ 10 :: rest).dropWhile (fun b => b ≠ 10) = 10 :: rest := by
  induction m with
  | nil => simp
  | cons a as ih =>
    have ha : a ≠ 10 := by
      rintro rfl
      exact hm (List.mem_cons_self _ _)
    have has : 10 ∉ as := fun h => hm (List.mem_cons_of_mem a h)
    rw [List.cons_append, List.dropWhile_cons, if_pos (by simp [ha]), ih has]

/-- Reading with `readLine` on a newline-terminated message returns the message and the
remainder of the stream. -/
theorem readLine_terminated (m rest : List Nat) (hm : 10 ∉ m)
    (hl : m.getLast? ≠ some 13) :
    readLine (m ++ 10 :: rest) = .ok (m, rest) := by
  have hne : (m ++ 10 :: rest).isEmpty = false := by cases m <;> rfl
  rw [readLine]
  rw [takeWhile_before_newline m rest hm, dropWhile_before_newline m rest hm]
  simp [hne, hl]

theorem checkSCPStatus_zero (rest : List Nat) :
    checkSCPStatus (0 :: rest) = (.ok (), rest) := by
  simp [checkSCPStatus]

theorem checkSCPStatus_reject (b : Nat) (m rest : List Nat) (hb : b ≠ 0)
    (hm : 10 ∉ m) (hl : m.getLast? ≠ some 13) :
    checkSCPStatus (b :: (m ++ 10 :: rest)) = (.error (.protocolError m), rest) := by
  simp [checkSCPStatus, hb, readLine_terminated m rest hm hl]

/-- A file upload against a sink that acknowledges both the header and the
terminator with a zero byte writes exactly header, content, NUL. -/
theorem scpUploadFile_ok (dst : String) (src w rest : List Nat) :
    scpUploadFile dst src ⟨w, 0 :: 0 :: rest⟩ =
      (.ok (), ⟨w ++ fileHeader dst src.length ++ src ++ [0], rest⟩) := by
  simp [scpUploadFile, checkSCPStatus]

/-- A file upload whose header is rejected stops right after the header. -/
theorem scpUploadFile_reject (dst : String) (src w : List Nat) (b : Nat)
    (m rest : List Nat) (hb : b ≠ 0) (hm : 10 ∉ m) (hl : m.getLast? ≠ some 13) :
    scpUploadFile dst src ⟨w, b :: (m ++ 10 :: rest)⟩ =
      (.error (.protocolError m), ⟨w ++ fileHeader dst src.length, rest⟩) := by
  simp [scpUploadFile, checkSCPStatus_reject b m rest hb hm hl]

/-! ## Claim theorems -/

/-- A configuration whose factory succeeds but whose handshake fails, and
a communicator holding it. -/
def cfgHsFail : Config :=
  { connection := .ok ⟨0⟩, handshake := fun _ => .error "auth failed" }

def commHsFail : Comm := { client := none, config := cfgHsFail, conn := none }

/-- C1 (counterexample): the claim that every failing `reconnect` leaves
both `conn` and `client` nil is false — when the factory succeeds and the
handshake fails, `reconnect` returns an error yet the communicator still
holds the new transport connection (`conn` set, `client` nil). -/
theorem reconnect_handshake_counterexample :
    (reconnect commHsFail).2 = some (.handshakeError "auth failed") ∧
    (reconnect commHsFail).1.conn = some ⟨0⟩ ∧
    (reconnect commHsFail).1.client = none :=
  ⟨rfl, rfl, rfl⟩

/-- C1 (amended): when `reconnect` fails, the `client` field is always
nil; if the factory failed, `conn` is nil as well, but if the handshake
failed, `conn` retains the newly created transport connection — a
half-initialized pair.  The communicator never holds a client without a
connection. -/
theorem reconnect_failure_state (c : Comm) :
    (∀ m, (reconnect c).2 = some (.connectionError m) →
       (reconnect c).1.conn = none ∧ (reconnect c).1.client = none)
    ∧ (∀ m, (reconnect c).2 = some (.handshakeError m) →
       (reconnect c).1.client = none ∧ (reconnect c).1.conn ≠ none)
    ∧ ((reconnect c).2 ≠ none → (reconnect c).1.client = none)
    ∧ ((reconnect c).1.client.isSome → (reconnect c).1.conn.isSome) := by
  unfold reconnect
  rcases hco : c.config.connection with e | conn
  · simp
  · rcases hhs : c.config.handshake conn with e | cl <;> simp [hhs]

/-- C1 (witness for the amended theorem), at the concrete handshake-failure
configuration. -/
theorem reconnect_failure_state_witness :
    (reconnect commHsFail).1.client = none ∧ (reconnect commHsFail).1.conn ≠ none :=
  (reconnect_failure_state commHsFail).2.1 "auth failed" rfl

/-- C2: uploading any `content` to any name `n` against a sink that
acknowledges with zero bytes writes exactly the header line
`C0644 <len(content)> n\n`, then `content` verbatim, then one NUL byte,
and nothing else; the declared decimal length is `content.length`, the
number of payload bytes before the terminator. -/
theorem upload_wire_format (n : String) (content w rest : List Nat) :
    scpUploadFile n content ⟨w, 0 :: 0 :: rest⟩ =
      (.ok (), ⟨w ++ strBytes ("C0644 " ++ toString content.length ++ " " ++ n ++ "\n")
                  ++ content ++ [0], rest⟩) :=
  scpUploadFile_ok n content w rest

/-- C5: if the sink rejects the header with a non-zero acknowledgement
byte followed by a newline-terminated message `m`, the upload aborts with
a protocol error whose message is exactly `m`, and nothing after the
header — no payload byte and no terminator byte — is written. -/
theorem upload_reject_aborts (n : String) (content w : List Nat) (b : Nat)
    (m rest : List Nat) (hb : b ≠ 0) (hm : 10 ∉ m) (hl : m.getLast? ≠ some 13) :
    scpUploadFile n content ⟨w, b :: (m ++ 10 :: rest)⟩ =
      (.error (.protocolError m), ⟨w ++ fileHeader n content.length, rest⟩) :=
  scpUploadFile_reject n content w b m rest hb hm hl

/-- C5 (witness): acknowledgement byte 1 with message "disk full". -/
theorem upload_reject_aborts_witness :
    scpUploadFile "f" [1, 2] ⟨[], 1 :: (strBytes "disk full" ++ 10 :: [])⟩ =
      (.error (.protocolError (strBytes "disk full")), ⟨fileHeader "f" 2, []⟩) := by
  have h := upload_reject_aborts "f" [1, 2] [] 1 (strBytes "disk full") []
    (by decide) (by decide) (by decide)
  simpa using h

/-- C6: `checkSCPStatus` reads exactly one byte; a zero byte is success
and consumes nothing further; any non-zero byte reads exactly one
newline-terminated message line and fails with it as a protocol error;
failure to read the status byte or the message line is an I/O-class
error distinct from a protocol rejection; success happens only on a
leading zero byte, never on end of stream. -/
theorem checkStatus_spec :
    (checkSCPStatus [] = (.error (.ioError "EOF"), []))
    ∧ (∀ rest, checkSCPStatus (0 :: rest) = (.ok (), rest))
    ∧ (∀ b m rest, b ≠ 0 → 10 ∉ m → m.getLast? ≠ some 13 →
        checkSCPStatus (b :: (m ++ 10 :: rest)) = (.error (.protocolError m), rest))
    ∧ (∀ b, b ≠ 0 → checkSCPStatus [b] = (.error (.readMessageError "EOF"), []))
    ∧ (∀ input r, checkSCPStatus input = (.ok (), r) → input = 0 :: r) := by
  refine ⟨rfl, checkSCPStatus_zero, checkSCPStatus_reject, ?_, ?_⟩
  · intro b hb
    simp [checkSCPStatus, hb, readLine]
  · intro input r h
    match input with
    | [] => simp [checkSCPStatus] at h
    | code :: rest =>
      by_cases hc : code = 0
      · subst hc
        rw [checkSCPStatus_zero] at h
        simp at h
        rw [h]
      · rw [checkSCPStatus] at h
        simp only [hc, if_false] at h
        rcases hrl : readLine rest with u | p
        · simp [hrl] at h
        · simp [hrl] at h

/-- C6 (witness): non-zero status byte 2 with message "oops". -/
theorem checkStatus_spec_witness :
    checkSCPStatus (2 :: (strBytes "oops" ++ 10 :: [])) =
      (.error (.protocolError (strBytes "oops")), []) :=
  checkStatus_spec.2.2.1 2 (strBytes "oops") [] (by decide) (by decide) (by decide)

/-- C3: `newSession` never performs more than one reconnect or more than
two channel-open attempts; a first-attempt success is returned as is; on
a first-attempt failure (including the no-client case) `reconnect` is
called exactly once; if the reconnect fails its error is returned with no
further open attempt; if it succeeds, exactly one retry open is performed
on the fresh client and its result — success or failure — is final. -/
theorem newSession_retry_policy (openCh : Client → Except String Session) (c : Comm) :
    ((newSession openCh c).2.2.count .reconnectCall ≤ 1
      ∧ (newSession openCh c).2.2.count .openAttempt ≤ 2)
    ∧ (∀ s, firstAttempt openCh c = .ok s →
        newSession openCh c = (c, .ok s, if c.client.isSome then [.openAttempt] else []))
    ∧ (∀ e, firstAttempt openCh c = .error e →
        (newSession openCh c).2.2.count .reconnectCall = 1)
    ∧ (∀ e re, firstAttempt openCh c = .error e → (reconnect c).2 = some re →
        (newSession openCh c).1 = (reconnect c).1
          ∧ (newSession openCh c).2.1 = .error re
          ∧ (newSession openCh c).2.2.count .openAttempt =
              (if c.client.isSome then 1 else 0))
    ∧ (∀ e, firstAttempt openCh c = .error e → (reconnect c).2 = none →
        ∃ cl, (reconnect c).1.client = some cl
          ∧ (newSession openCh c).1 = (reconnect c).1
          ∧ (newSession openCh c).2.1 =
              (match openCh cl with
               | .error m => .error (.openError m)
               | .ok s => .ok s)
          ∧ (newSession openCh c).2.2.count .openAttempt =
              (if c.client.isSome then 1 else 0) + 1) := by
  rcases hfa : firstAttempt openCh c with e | s
  · -- first attempt failed
    rcases hr : reconnect c with ⟨c1, oe⟩
    rcases oe with _ | re
    · -- reconnect succeeded
      obtain ⟨cl, conn, hcl0, -⟩ := reconnect_ok_fields c (by rw [hr])
      rw [hr] at hcl0
      have hcl : c1.client = some cl := hcl0
      have hns : newSession openCh c =
          (c1,
           (match openCh cl with
            | .error m => .error (.openError m)
            | .ok s => .ok s),
           (if c.client.isSome then [.openAttempt] else [])
             ++ [.reconnectCall, .openAttempt]) := by
        simp [newSession, hfa, hr, hcl]
      refine ⟨?_, ?_, ?_, ?_, ?_⟩
      · rw [hns]
        rcases hcc : c.client with _ | cl0 <;>
          simp [hcc, List.count_append, List.count_cons, List.count_nil]
      · intro s hs
        exact absurd hs (by simp)
      · intro e2 _
        rw [hns]
        rcases hcc : c.client with _ | cl0 <;>
          simp [hcc, List.count_append, List.count_cons, List.count_nil]
      · intro e2 re h1 h2
        exact absurd h2 (by simp)
      · intro e2 _ _
        refine ⟨cl, hcl0, by rw [hns], by rw [hns], ?_⟩
        rw [hns]
        rcases hcc : c.client with _ | cl0 <;>
          simp [hcc, List.count_append, List.count_cons, List.count_nil]
    · -- reconnect failed
      have hns : newSession openCh c =
          (c1, .error re,
           (if c.client.isSome then [.openAttempt] else []) ++ [.reconnectCall]) := by
        simp [newSession, hfa, hr]
      refine ⟨?_, ?_, ?_, ?_, ?_⟩
      · rw [hns]
        rcases hcc : c.client with _ | cl0 <;>
          simp [hcc, List.count_append, List.count_cons, List.count_nil]
      · intro s hs
        exact absurd hs (by simp)
      · intro e2 _
        rw [hns]
        rcases hcc : c.client with _ | cl0 <;>
          simp [hcc, List.count_append, List.count_cons, List.count_nil]
      · intro e2 re2 h1 h2
        have h2e : re = re2 := by simpa using h2
        subst h2e
        refine ⟨by rw [hns], by rw [hns], ?_⟩
        rw [hns]
        rcases hcc : c.client with _ | cl0 <;>
          simp [hcc, List.count_append, List.count_cons, List.count_nil]
      · intro e2 h1 h2
        exact absurd h2 (by simp)
  · -- first attempt succeeded
    have hsome : c.client.isSome = true := by
      rcases hcc : c.client with _ | cl0
      · simp [firstAttempt, hcc] at hfa
      · simp [hcc]
    have hns : newSession openCh c = (c, .ok s, [.openAttempt]) := by
      simp [newSession, hfa, hsome]
    refine ⟨?_, ?_, ?_, ?_, ?_⟩
    · rw [hns]
      constructor <;> simp [List.count_cons, List.count_nil]
    · intro s2 hs2
      have hss : s = s2 := by simpa using hs2
      subst hss
      rw [hns, hsome]
      simp
    · intro e2 h2
      exact absurd h2 (by simp)
    · intro e2 re h1 _
      exact absurd h1 (by simp)
    · intro e2 h1 _
      exact absurd h1 (by simp)

/-- Concrete retry scenario: the stale client `⟨0⟩` fails to open, the
reconnect installs client `⟨1⟩`, and the retry open succeeds. -/
def openChRetry : Client → Except String Session :=
  fun cl => if cl.id = 1 then .ok ⟨5⟩ else .error "stale client"

def cfgRetry : Config :=
  { connection := .ok ⟨2⟩, handshake := fun _ => .ok ⟨1⟩ }

def commRetry : Comm := { client := some ⟨0⟩, config := cfgRetry, conn := some ⟨9⟩ }

/-- C3 (witness): in the concrete retry scenario the reconnect is called
exactly once. -/
theorem newSession_retry_policy_witness :
    (newSession openChRetry commRetry).2.2.count .reconnectCall = 1 :=
  (newSession_retry_policy openChRetry commRetry).2.2.1 (.openError "stale client") rfl

/-- C4: a synchronous failure of session acquisition, pty negotiation or
process start returns the error with no background task (the completion
slot is never written); on success the background task writes the exit
status exactly once — the remote-reported code for a typed exit error,
`0` on success, `0` for any other wait error — and closes the session. -/
theorem start_async_exit_status (o : StartOracles) (c : Comm) :
    (∀ e, (Start o c).2.1 = some e → (Start o c).2.2 = [])
    ∧ ((Start o c).2.1 = none →
        ∃ s, (newSession o.openCh c).2.1 = .ok s
          ∧ (Start o c).2.2 = [.setExited (exitCodeOf (o.wait s)), .closeSession])
    ∧ (∀ code, exitCodeOf (.exitError code) = code)
    ∧ (exitCodeOf .success = 0)
    ∧ (∀ m, exitCodeOf (.otherError m) = 0) := by
  rcases hns : newSession o.openCh c with ⟨c2, r, evs⟩
  rcases r with e | s
  · have h : Start o c = (c2, some (.sessionError e), []) := by
      simp [Start, hns]
    refine ⟨fun _ _ => by rw [h], ?_, fun _ => rfl, rfl, fun _ => rfl⟩
    intro hn
    rw [h] at hn
    exact absurd hn (by simp)
  · rcases hp : o.requestPty s with _ | e1
    · rcases hst : o.startCmd s with _ | e2
      · have h : Start o c = (c2, none, waitTask (o.wait s)) := by
          simp [Start, hns, hp, hst]
        refine ⟨?_, ?_, fun _ => rfl, rfl, fun _ => rfl⟩
        · intro e he
          rw [h] at he
          exact absurd he (by simp)
        · intro _
          exact ⟨s, rfl, by rw [h]; rfl⟩
      · have h : Start o c = (c2, some (.startFailed e2), []) := by
          simp [Start, hns, hp, hst]
        refine ⟨fun _ _ => by rw [h], ?_, fun _ => rfl, rfl, fun _ => rfl⟩
        intro hn
        rw [h] at hn
        exact absurd hn (by simp)
    · have h : Start o c = (c2, some (.ptyError e1), []) := by
        simp [Start, hns, hp]
      refine ⟨fun _ _ => by rw [h], ?_, fun _ => rfl, rfl, fun _ => rfl⟩
      intro hn
      rw [h] at hn
      exact absurd hn (by simp)

/-- Concrete command run: everything succeeds and the remote process
exits with status 3. -/
def oExit3 : StartOracles :=
  { openCh := fun _ => .ok ⟨7⟩
  , requestPty := fun _ => none
  , startCmd := fun _ => none
  , wait := fun _ => .exitError 3 }

def commExit3 : Comm := { client := some ⟨0⟩, config := cfgHsFail, conn := some ⟨9⟩ }

/-- C4 (witness): a command exiting with status 3 makes the background
task set the completion slot to 3, exactly once, then close the session. -/
theorem start_async_exit_status_witness :
    (Start oExit3 commExit3).2.2 = [.setExited 3, .closeSession] := by
  obtain ⟨s, -, h⟩ := (start_async_exit_status oExit3 commExit3).2.1 rfl
  simpa using h

/-- The content a file entry's `openFile` yields (default `[]` when the
open fails; the directory-upload theorem assumes every open succeeds). -/
def contentOf (dops : DirOracles) (root : String) (fi : FileInfo) : List Nat :=
  match dops.openFile (joinPath root fi.name) with
  | .ok content => content
  | .error _ => []

/-- The full wire footprint of one file upload: header, content, NUL. -/
def uploadBytes (dops : DirOracles) (root : String) (fi : FileInfo) : List Nat :=
  fileHeader fi.name (contentOf dops root fi).length
    ++ contentOf dops root fi ++ [0]

/-- C7: against a sink that acknowledges everything with zero bytes,
`scpUploadDir` writes exactly the concatenated file uploads of the
regular-file entries, in listing order; directory entries are skipped
and contribute no bytes at all — in particular no `D`/`E` directory
control records and no descent into subdirectories. -/
theorem scpUploadDir_flat (dops : DirOracles) (root : String)
    (entries : List FileInfo) (w : List Nat)
    (h : ∀ fi ∈ entries, fi.isDir = false →
      ∃ content, dops.openFile (joinPath root fi.name) = .ok content) :
    scpUploadDir dops root entries
        ⟨w, List.replicate (2 * (entries.filter fun fi => !fi.isDir).length) 0⟩ =
      (.ok (),
       ⟨w ++ ((entries.filter fun fi => !fi.isDir).map (uploadBytes dops root)).flatten,
        []⟩) := by
  induction entries generalizing w with
  | nil => simp [scpUploadDir]
  | cons fi rest ih =>
    have hrest : ∀ fi2 ∈ rest, fi2.isDir = false →
        ∃ content, dops.openFile (joinPath root fi2.name) = .ok content :=
      fun fi2 h2 => h fi2 (List.mem_cons_of_mem _ h2)
    by_cases hd : fi.isDir = true
    · have hfil : List.filter (fun x => !x.isDir) (fi :: rest)
          = List.filter (fun x => !x.isDir) rest := by
        simp [List.filter_cons, hd]
      rw [hfil]
      simp only [scpUploadDir, hd, if_true]
      exact ih w hrest
    · have hd2 : fi.isDir = false := by
        simpa using hd
      obtain ⟨content, hc⟩ := h fi (List.mem_cons_self _ _) hd2
      have hfil : List.filter (fun x => !x.isDir) (fi :: rest)
          = fi :: List.filter (fun x => !x.isDir) rest := by
        simp [List.filter_cons, hd2]
      rw [hfil]
      have hrep : (List.replicate
            (2 * (fi :: List.filter (fun x => !x.isDir) rest).length) 0 : List Nat)
          = 0 :: 0 :: List.replicate
              (2 * (List.filter (fun x => !x.isDir) rest).length) 0 := by
        rw [List.length_cons, Nat.mul_succ]
        rfl
      rw [hrep]
      simp only [scpUploadDir, hd2, Bool.false_eq_true, if_false, hc,
        scpUploadFile_ok]
      rw [ih _ hrest]
      simp [uploadBytes, contentOf, hc, List.append_assoc]

/-- Concrete filesystem: one regular file `a.txt` (content "hi") and one
subdirectory `sub`. -/
def dopsFlat : DirOracles :=
  { openDir := fun _ => .ok ()
  , readdir := fun _ => .ok [⟨"a.txt", false⟩, ⟨"sub", true⟩]
  , openFile := fun _ => .ok [104, 105] }

/-- C7 (witness): only `a.txt` is uploaded; `sub` contributes nothing. -/
theorem scpUploadDir_flat_witness :
    scpUploadDir dopsFlat "srcdir" [⟨"a.txt", false⟩, ⟨"sub", true⟩]
        ⟨[], List.replicate
          (2 * (([⟨"a.txt", false⟩, ⟨"sub", true⟩] : List FileInfo).filter
            fun fi => !fi.isDir).length) 0⟩ =
      (.ok (),
       ⟨[] ++ ((([⟨"a.txt", false⟩, ⟨"sub", true⟩] : List FileInfo).filter
            fun fi => !fi.isDir).map (uploadBytes dopsFlat "srcdir")).flatten,
        []⟩) :=
  scpUploadDir_flat dopsFlat "srcdir" [⟨"a.txt", false⟩, ⟨"sub", true⟩] []
    (fun _ _ _ => ⟨[104, 105], rfl⟩)

/-- C9: `scpSession` closes the session exactly once on every exit path
after acquisition (no session exists when acquisition itself fails), and
closes the stdin pipe exactly once on every exit path after the pipe is
obtained — never when obtaining it failed. -/
theorem scpSession_resources (so : SessionOracles) (sink : List Nat)
    (f : Wire → Except ScpError Unit × Wire) (cmd : String) (c : Comm) :
    (∀ e, (newSession so.openCh c).2.1 = .error e →
       (scpSession so sink f cmd c).2.2.1 = [])
    ∧ (∀ s, (newSession so.openCh c).2.1 = .ok s →
        ((scpSession so sink f cmd c).2.2.1.count SessEvent.sessionClose = 1
         ∧ (so.stdinPipe s = none →
             (scpSession so sink f cmd c).2.2.1.count SessEvent.stdinClose = 1)
         ∧ (∀ m, so.stdinPipe s = some m →
             (scpSession so sink f cmd c).2.2.1.count SessEvent.stdinClose = 0))) := by
  rcases hns : newSession so.openCh c with ⟨c2, r, evs⟩
  rcases r with e | s
  · have h : scpSession so sink f cmd c = (c2, some (.sshErr e), [], ⟨[], sink⟩) := by
      simp [scpSession, hns]
    refine ⟨fun _ _ => by rw [h], ?_⟩
    intro s hs
    exact absurd hs (by simp)
  · refine ⟨fun e he => absurd he (by simp), ?_⟩
    intro s2 hs2
    have hss : s = s2 := by simpa using hs2
    subst hss
    rcases hsp : so.stdinPipe s with _ | m
    · have hevs : (scpSession so sink f cmd c).2.2.1 = [.stdinClose, .sessionClose] := by
        simp only [scpSession, hns, hsp]
        rcases hso : so.stdoutPipe s with _ | m2
        · rcases hst : so.startSink s cmd with _ | m3
          · rcases hfw : f (⟨[], sink⟩ : Wire) with ⟨fr, wire1⟩
            rcases fr with e2 | u
            · simp
            · rcases hw : so.wait s with _ | code | m4
              · simp
              · by_cases h127 : code = 127 <;> simp [h127]
              · simp
          · simp
        · simp
      exact ⟨by rw [hevs]; decide,
             fun _ => by rw [hevs]; decide,
             fun m2 hm2 => absurd hm2 (by simp)⟩
    · have h : scpSession so sink f cmd c
          = (c2, some (.pipeError m), [.sessionClose], ⟨[], sink⟩) := by
        simp [scpSession, hns, hsp]
      exact ⟨by rw [h]; simp [List.count_cons, List.count_nil],
             fun hn => absurd hn (by simp),
             fun m2 _ => by rw [h]; simp [List.count_cons, List.count_nil]⟩

/-- C8: once the transfer itself has completed, a remote sink exit status
of 127 is reported as the fixed "SCP is not properly installed" message —
not as the raw exit-status error — while any other non-zero exit status
is returned as the raw exit-status error; and the result never depends on
what the remote process wrote to stderr. -/
theorem scpSession_exit127 (so : SessionOracles) (sink : List Nat)
    (f : Wire → Except ScpError Unit × Wire) (cmd : String) (c : Comm) (s : Session)
    (hs : (newSession so.openCh c).2.1 = .ok s)
    (h1 : so.stdinPipe s = none) (h2 : so.stdoutPipe s = none)
    (h3 : so.startSink s cmd = none)
    (hf : (f ⟨[], sink⟩).1 = .ok ()) :
    (so.wait s = .exitError 127 →
       (scpSession so sink f cmd c).2.1 = some (.newError scpNotInstalledMessage))
    ∧ (∀ code, code ≠ 127 → so.wait s = .exitError code →
       (scpSession so sink f cmd c).2.1 = some (.exitError code))
    ∧ (∀ g, scpSession { so with stderrOut := g } sink f cmd c
        = scpSession so sink f cmd c) := by
  rcases hns : newSession so.openCh c with ⟨c2, r, evs⟩
  rw [hns] at hs
  have hr : r = .ok s := hs
  subst hr
  rcases hfw : f (⟨[], sink⟩ : Wire) with ⟨fr, wire1⟩
  rw [hfw] at hf
  have hfr : fr = .ok () := hf
  subst hfr
  refine ⟨?_, ?_, fun g => rfl⟩
  · intro hw
    simp [scpSession, hns, h1, h2, h3, hfw, hw]
  · intro code hcode hw
    simp [scpSession, hns, h1, h2, h3, hfw, hw, hcode]

/-- Oracles for a run in which everything succeeds until the remote sink
exits with status 127; the sink writes stderr noise that must not matter. -/
def so127 : SessionOracles :=
  { openCh := fun _ => .ok ⟨3⟩
  , stdinPipe := fun _ => none
  , stdoutPipe := fun _ => none
  , startSink := fun _ _ => none
  , wait := fun _ => .exitError 127
  , stderrOut := fun _ => strBytes "scp: command not found" }

def cfg127 : Config := { connection := .ok ⟨2⟩, handshake := fun _ => .ok ⟨1⟩ }

def comm127 : Comm := { client := some ⟨0⟩, config := cfg127, conn := some ⟨9⟩ }

/-- C8 (witness): a remote exit status of 127 yields the fixed descriptive
message. -/
theorem scpSession_exit127_witness :
    (scpSession so127 [] (fun w => (.ok (), w)) "scp -vt /tmp" comm127).2.1
      = some (.newError scpNotInstalledMessage) :=
  (scpSession_exit127 so127 [] (fun w => (.ok (), w)) "scp -vt /tmp" comm127 ⟨3⟩
    rfl rfl rfl rfl rfl).1 rfl

/-- C9 (witness): in the concrete run the session is closed exactly once
and the stdin pipe is closed exactly once. -/
theorem scpSession_resources_witness :
    (scpSession so127 [] (fun w => (.ok (), w)) "scp -vt /tmp" comm127).2.2.1.count
        SessEvent.sessionClose = 1
    ∧ (scpSession so127 [] (fun w => (.ok (), w)) "scp -vt /tmp" comm127).2.2.1.count
        SessEvent.stdinClose = 1 := by
  obtain ⟨h1, h2, -⟩ :=
    ((scpSession_resources so127 [] (fun w => (.ok (), w)) "scp -vt /tmp" comm127).2
      ⟨3⟩ rfl)
  exact ⟨h1, h2 rfl⟩

/-- C10: when opening the local source directory or listing its entries
fails, `UploadDir` returns that local error with the communicator state
untouched, no session event, and not a single byte written — the failure
happens before any session is opened or any remote sink is started. -/
theorem uploadDir_local_failure (dops : DirOracles) (so : SessionOracles)
    (sink : List Nat) (c : Comm) (dst src : String) (excl : List String) :
    (∀ e, dops.openDir src = .error e →
       UploadDir dops so sink c dst src excl = (c, some (.osError e), [], ⟨[], sink⟩))
    ∧ (∀ e, dops.openDir src = .ok () → dops.readdir src = .error e →
       UploadDir dops so sink c dst src excl = (c, some (.osError e), [], ⟨[], sink⟩)) := by
  constructor
  · intro e he
    simp [UploadDir, he]
  · intro e ho he
    simp [UploadDir, ho, he]

/-- A local filesystem whose directory open fails. -/
def dopsFail : DirOracles :=
  { openDir := fun _ => .error "permission denied"
  , readdir := fun _ => .ok []
  , openFile := fun _ => .ok [] }

/-- C10 (witness): the local open failure is returned unchanged, with the
communicator, event trace and wire untouched. -/
theorem uploadDir_local_failure_witness :
    UploadDir dopsFail so127 [] comm127 "/dst" "/src" [] =
      (comm127, some (.osError "permission denied"), [], ⟨[], []⟩) :=
  (uploadDir_local_failure dopsFail so127 [] comm127 "/dst" "/src" []).1
    "permission denied" rfl

end SSHComm
